import Mathlib

-- Verification of the Nightcaste engine core (nightcaste/engine.py and
-- nightcaste/processors.py), shallow-embedded over exact rationals.
-- Components live in association lists keyed by entity identifier; the
-- external collaborators (collision module, game module globals, sound bank,
-- map provider) are modelled from the specification where noted.

-- Entity identifiers and keyed component collections

abbrev EntityId := Nat

/-- Lookup of the value attached to a key in a keyed collection; absence is an
explicit `none`, mirroring the component store's optional `get` queries. -/
def getc {κ α : Type} [DecidableEq κ] : List (κ × α) → κ → Option α
  | [], _ => none
  | p :: rest, e => if p.1 = e then some p.2 else getc rest e

/-- In-place replacement of the value stored under a key, mirroring mutation of
a component object held by the store (keys are never added or removed). -/
def setc {κ α : Type} [DecidableEq κ] (l : List (κ × α)) (k : κ) (v : α) :
    List (κ × α) :=
  l.map (fun p => if p.1 = k then (k, v) else p)

theorem getc_setc_ne {κ α : Type} [DecidableEq κ] (l : List (κ × α)) (k e : κ) (v : α)
    (h : k ≠ e) : getc (setc l k v) e = getc l e := by
  induction l with
  | nil => rfl
  | cons p rest ih =>
    by_cases h1 : p.1 = k
    · have h2 : p.1 ≠ e := by rw [h1]; exact h
      simp only [setc] at ih
      simp [getc, setc, h1, h, h2, ih]
    · simp only [setc] at ih
      simp [getc, setc, h1, ih]

theorem getc_setc_self {κ α : Type} [DecidableEq κ] (l : List (κ × α)) (k : κ) (v : α)
    (w : α) (h : getc l k = some w) : getc (setc l k v) k = some v := by
  induction l with
  | nil => simp [getc] at h
  | cons p rest ih =>
    by_cases h1 : p.1 = k
    · simp [getc, setc, h1]
    · simp [getc, h1] at h
      simp only [setc] at ih
      simp [getc, setc, h1, ih h]

theorem getc_setc_none {κ α : Type} [DecidableEq κ] (l : List (κ × α)) (k e : κ) (v : α)
    (h : getc l e = none) : getc (setc l k v) e = none := by
  induction l with
  | nil => rfl
  | cons p rest ih =>
    by_cases h1 : p.1 = e
    · simp [getc, h1] at h
    · simp [getc, h1] at h
      by_cases h2 : p.1 = k
      · have h3 : k ≠ e := by rw [← h2]; exact h1
        simp only [setc] at ih
        simp [getc, setc, h2, h3, ih h]
      · simp only [setc] at ih
        simp [getc, setc, h1, h2, ih h]

theorem getc_none_of_not_mem {κ α : Type} [DecidableEq κ] (l : List (κ × α)) (e : κ)
    (h : e ∉ l.map Prod.fst) : getc l e = none := by
  induction l with
  | nil => rfl
  | cons p rest ih =>
    rw [List.map_cons] at h
    simp only [List.mem_cons, not_or] at h
    obtain ⟨hne, hnm⟩ := h
    have h1 : p.1 ≠ e := fun hh => hne hh.symm
    simp [getc, h1, ih hnm]

-- Geometry: positions and rectangles over exact rationals

structure Position where
  x : ℚ
  y : ℚ
deriving Repr, DecidableEq

/-- Position.move of the Position component: add a displacement. -/
def Position.move (p : Position) (dx dy : ℚ) : Position := ⟨p.x + dx, p.y + dy⟩

/-- Modelled from the spec: the bounding rectangle datum of the external
collision module (the Colliding component), with `move` and `set_position`. -/
structure Rect where
  x : ℚ
  y : ℚ
  w : ℚ
  h : ℚ
deriving Repr, DecidableEq

def Rect.move (r : Rect) (dx dy : ℚ) : Rect := { r with x := r.x + dx, y := r.y + dy }

def Rect.set_position (r : Rect) (px py : ℚ) : Rect := { r with x := px, y := py }

/-- Modelled from the spec: rectangle overlap as used by the spatial index's
rectangle-collision queries. -/
def Rect.overlaps (a b : Rect) : Bool :=
  decide (a.x < b.x + b.w) && decide (b.x < a.x + a.w) &&
    decide (a.y < b.y + b.h) && decide (b.y < a.y + a.h)

/-- Modelled from the spec: the QTreeCollisionManager of the external collision
module, reduced to its observable contract — a collection of entity/rectangle
entries; `collide_rect` returns the colliding entities excluding the querier. -/
structure CollisionManager where
  entries : List (EntityId × Rect)
deriving Repr, DecidableEq

/-- Modelled from the spec: `collide_rect(entity, rect)` returns the entities
whose indexed rectangles overlap `rect`, the querying entity excluded. -/
def CollisionManager.collide_rect (cm : CollisionManager) (entity : EntityId)
    (r : Rect) : List EntityId :=
  (cm.entries.filter (fun p => (p.1 != entity) && Rect.overlaps p.2 r)).map Prod.fst

/-- Modelled from the spec: `fill(bounds, entities)` clears and rebuilds the
index for a bounding region. -/
def CollisionManager.fill (_bounds : Rect) (entries : List (EntityId × Rect)) :
    CollisionManager :=
  ⟨entries⟩

/-- Modelled from the spec: `move(entity)` updates the index entry after the
entity's rectangle changed (the new rectangle passed explicitly here). -/
def CollisionManager.moveEntry (cm : CollisionManager) (e : EntityId) (r : Rect) :
    CollisionManager :=
  ⟨setc cm.entries e r⟩

-- Movement components

/-- Modelled from the spec: the direction datum of the Input component from the
external input module — a numeric direction code plus the directional scaling
(`get_dx`/`get_dy` applied to a distance) used by the movement system. -/
structure Direction where
  direction : Int
  get_dx : ℚ → ℚ
  get_dy : ℚ → ℚ

structure InputComp where
  direction : Direction

structure Movement where
  speed : ℚ
deriving Repr, DecidableEq

structure Sprite where
  animation : String
deriving Repr, DecidableEq

/-- Sprite.animate: switch the active animation. -/
def Sprite.animate (_s : Sprite) (a : String) : Sprite := ⟨a⟩

/-- The predicted per-axis displacement of MovementSystem.apply:
`math.copysign(math.ceil(math.fabs(d)), d)` — ceiling of the magnitude with the
sign preserved. -/
def copysign_ceil (d : ℚ) : ℚ :=
  if d < 0 then -((⌈-d⌉ : ℤ) : ℚ) else ((⌈d⌉ : ℤ) : ℚ)

/-- The data MovementSystem.apply mutates: the entity's Position, its Colliding
rectangle (when present) and the collision manager. -/
structure ApplyResult where
  position : Position
  collidable : Option Rect
  cm : CollisionManager

/-- MovementSystem.apply (processors.py:185-203): compute the exact displacement,
predict it outward by `copysign_ceil`, query the collision manager against the
collider moved by the predicted displacement, and commit the exact displacement
only when no collision is reported; entities without a collider skip the check. -/
def MovementSystem.apply (cm : CollisionManager) (entity : EntityId)
    (direction : Direction) (distance : ℚ) (position : Position)
    (collidable : Option Rect) : ApplyResult :=
  let dx := direction.get_dx distance
  let dy := direction.get_dy distance
  let collides : Bool :=
    match collidable with
    | none => false
    | some c =>
      let predicted_dx := copysign_ceil dx
      let predicted_dy := copysign_ceil dy
      let rect := c.move predicted_dx predicted_dy
      decide (0 < (cm.collide_rect entity rect).length)
  if collides then
    { position := position, collidable := collidable, cm := cm }
  else
    let position2 := position.move dx dy
    match collidable with
    | none => { position := position2, collidable := none, cm := cm }
    | some c =>
      let c2 := c.set_position position2.x position2.y
      { position := position2, collidable := some c2, cm := cm.moveEntry entity c2 }

-- The entity-manager view the movement system reads and writes

structure EMState where
  inputs : List (EntityId × InputComp)
  positions : List (EntityId × Position)
  movements : List (EntityId × Movement)
  collidings : List (EntityId × Rect)
  sprites : List (EntityId × Sprite)

structure MSState where
  em : EMState
  cm : CollisionManager

/-- The body of the per-entity loop of MovementSystem.update (processors.py:210-226).
Missing Position or Movement raises (dict indexing), a missing Sprite raises at
`sprite.animate`, while a missing Colliding component is an explicit `none`. -/
def MovementSystem.stepEntity (st : MSState) (delta : ℚ) (entity : EntityId)
    (inputcomp : InputComp) : Except String MSState :=
  let sprite? := getc st.em.sprites entity
  if inputcomp.direction.direction ≠ 0 then
    match getc st.em.positions entity with
    | none => .error "KeyError: Position"
    | some position =>
      match getc st.em.movements entity with
      | none => .error "KeyError: Movement"
      | some movement =>
        let collidable := getc st.em.collidings entity
        match sprite? with
        | none => .error "AttributeError: None.animate"
        | some sprite =>
          let sprite2 := sprite.animate "walk"
          let r := MovementSystem.apply st.cm entity inputcomp.direction
            (movement.speed * delta) position collidable
          .ok
            { em :=
                { st.em with
                  positions := setc st.em.positions entity r.position
                  collidings :=
                    match r.collidable with
                    | some c => setc st.em.collidings entity c
                    | none => st.em.collidings
                  sprites := setc st.em.sprites entity sprite2 }
              cm := r.cm }
  else
    match sprite? with
    | none => .error "AttributeError: None.animate"
    | some sprite =>
      .ok { st with em :=
              { st.em with sprites := setc st.em.sprites entity (sprite.animate "idle") } }

/-- The loop of MovementSystem.update over the moving (Input-bearing) entities. -/
def MovementSystem.runEntities (delta : ℚ) :
    List (EntityId × InputComp) → MSState → Except String MSState
  | [], st => .ok st
  | (e, i) :: rest, st =>
    match MovementSystem.stepEntity st delta e i with
    | .error s => .error s
    | .ok st2 => MovementSystem.runEntities delta rest st2

/-- MovementSystem.update (processors.py:205-226). -/
def MovementSystem.update (st : MSState) (delta : ℚ) : Except String MSState :=
  MovementSystem.runEntities delta st.em.inputs st

/-- MovementSystem.on_map_changed (processors.py:228-232): rebuild the spatial
index from all Colliding components. -/
def MovementSystem.on_map_changed (st : MSState) : MSState :=
  { st with cm := CollisionManager.fill (Rect.mk 0 0 3200 4480) st.em.collidings }

-- Fixed-timestep loop (engine.py main, lines 52-74)

/-- SEC_PER_UPDATE, the fixed simulation tick duration of engine.main. -/
def SEC_PER_UPDATE : ℚ := 1/100

/-- MIN_FRAME_TIME, the target frame budget of engine.main. -/
def MIN_FRAME_TIME : ℚ := 1/60

/-- The observable phases of one outer iteration of the engine super loop. -/
inductive Phase where
  | inputUpdate
  | behaviourUpdate
  | processEvents
  | systemsUpdate
  | processUpdate
  | render
  | sleep (duration : ℚ)
deriving Repr, DecidableEq

/-- One pass of the body of the inner while loop of engine.main (lines 59-70):
input polling, then — unless the game is paused — the behaviour update and an
event drain, then the system update, a drain, the process update and a drain. -/
def stepRound (paused : Bool) : List Phase :=
  [Phase.inputUpdate] ++
    (if paused then [] else [Phase.behaviourUpdate, Phase.processEvents]) ++
    [Phase.systemsUpdate, Phase.processEvents, Phase.processUpdate, Phase.processEvents]

/-- The stepping round in the order the claim words it: input, behaviour,
systems, event drain, process update, event drain (stated for comparison with
`stepRound`, which is embedded from the code). -/
def claimedStepRound : List Phase :=
  [Phase.inputUpdate, Phase.behaviourUpdate, Phase.systemsUpdate,
    Phase.processEvents, Phase.processUpdate, Phase.processEvents]

/-- The inner while loop of engine.main: as long as the accumulated lag reaches
one tick duration, run one stepping round and subtract one tick from the lag. -/
def innerLoop (lag : ℚ) (paused : Bool) : List Phase × ℚ :=
  if h : SEC_PER_UPDATE ≤ lag then
    let r := innerLoop (lag - SEC_PER_UPDATE) paused
    (stepRound paused ++ r.1, r.2)
  else ([], lag)
termination_by (⌊lag / SEC_PER_UPDATE⌋).toNat
decreasing_by
  have hpos : (0 : ℚ) < SEC_PER_UPDATE := by norm_num [SEC_PER_UPDATE]
  have h1 : (1 : ℤ) ≤ ⌊lag / SEC_PER_UPDATE⌋ := by
    rw [Int.le_floor]
    push_cast
    rw [le_div_iff hpos]
    linarith
  have h2 : ⌊(lag - SEC_PER_UPDATE) / SEC_PER_UPDATE⌋ = ⌊lag / SEC_PER_UPDATE⌋ - 1 := by
    rw [sub_div, div_self (ne_of_gt hpos), Int.floor_sub_one]
  omega

/-- The number of whole simulation ticks a given accumulated lag yields. -/
def numTicks (lag : ℚ) : ℕ := (⌊lag / SEC_PER_UPDATE⌋).toNat

/-- One outer iteration of engine.main (lines 52-74): add the measured
wall-clock delta to the lag, drain the lag in fixed ticks, then render once and
sleep for max(MIN_FRAME_TIME - render_time, 0). -/
def mainIteration (lag : ℚ) (time_delta : ℚ) (paused : Bool) (render_time : ℚ) :
    List Phase × ℚ :=
  let lag2 := lag + time_delta
  let r := innerLoop lag2 paused
  (r.1 ++ [Phase.render, Phase.sleep (max (MIN_FRAME_TIME - render_time) 0)], r.2)

-- Game time (processors.py GameTimeSystem, lines 461-472)

/-- Modelled from the spec: the game module status global; the loop and the time
system only distinguish the paused status (G_PAUSED) from any other. -/
inductive GameStatus where
  | running
  | paused
deriving Repr, DecidableEq

/-- GameTimeSystem.update (processors.py:470-472): accrue scaled time into the
world clock unless the game status is paused. -/
def GameTimeSystem.update (status : GameStatus) (time_multi : ℚ) (time : ℚ)
    (delta_time : ℚ) : ℚ :=
  if status ≠ GameStatus.paused then time + delta_time * time_multi else time

-- System dispatcher (processors.py SystemManager, lines 20-74)

/-- A managed system, identified opaquely; its register and update hooks are
recorded as calls in a trace. -/
structure GameSystem where
  sysId : Nat
deriving Repr, DecidableEq

structure SystemManagerState where
  systems : List GameSystem
deriving Repr, DecidableEq

/-- A call the system manager makes into a managed system. -/
inductive SysCall where
  | registerCall (sys : Nat)
  | updateCall (sys : Nat) (round : Nat) (delta : ℚ)
deriving Repr, DecidableEq

/-- SystemManager.add_system (processors.py:55-59): append the system to the
ordered list and call its register hook, once. -/
def SystemManager.add_system (m : SystemManagerState) (s : GameSystem) :
    SystemManagerState × List SysCall :=
  ({ systems := m.systems ++ [s] }, [SysCall.registerCall s.sysId])

/-- The for loop of SystemManager.update: one update call per system, in list
order. -/
def SystemManager.updateCalls (r : Nat) (d : ℚ) : List GameSystem → List SysCall
  | [] => []
  | s :: rest => SysCall.updateCall s.sysId r d :: SystemManager.updateCalls r d rest

/-- SystemManager.update (processors.py:71-74). -/
def SystemManager.update (m : SystemManagerState) (r : Nat) (d : ℚ) : List SysCall :=
  SystemManager.updateCalls r d m.systems

-- Sound (processors.py SoundSystem, lines 437-449)

/-- Modelled from the spec: an opaque sound resource of the external audio
backend. -/
structure Sound where
  name : String
deriving Repr, DecidableEq

/-- The observable outcome of SoundSystem.play: either the looked-up sound is
played with loop count -1, or the missing key is logged as an error. -/
inductive PlayResult where
  | played (sound : Sound) (loops : Int)
  | loggedError (key : String)
deriving Repr, DecidableEq

/-- Modelled from the spec: SoundBank lookup by symbolic key from the preloaded
bank; absence is an explicit none. -/
def SoundBank.get (bank : List (String × Sound)) (key : String) : Option Sound :=
  getc bank key

/-- SoundSystem.play (processors.py:444-449): play the looked-up sound, or log
an error and skip playback when the key is absent. -/
def SoundSystem.play (bank : List (String × Sound)) (key : String) : PlayResult :=
  match SoundBank.get bank key with
  | some sound => PlayResult.played sound (-1)
  | none => PlayResult.loggedError key

-- Map change (processors.py MapChangeProcessor, lines 263-309, and
-- TransitionProcessor, lines 380-395)

/-- The Map component: entry point, parent and children links. -/
structure MapComp where
  entry : ℚ × ℚ
  parent : Option EntityId
  children : List EntityId
deriving Repr, DecidableEq

/-- Map.add_child: record a child map. -/
def MapComp.add_child (m : MapComp) (c : EntityId) : MapComp :=
  { m with children := m.children ++ [c] }

/-- A MapChange event: name is always set; level and the type field may be
absent (the event carries no such attribute). -/
structure MapChangeEvent where
  name : String
  level : Option Int
  typeField : Option String
deriving Repr, DecidableEq

/-- The events thrown by the map-change and use-entity processors. -/
inductive GameEventRec where
  | MoveAction (entity : EntityId) (dx dy : ℚ) (absolute : Nat)
  | MapChanged
  | UseEvent (kind : String) (usedEntity : EntityId)
deriving Repr, DecidableEq

/-- The entity-manager view the map-change processor reads and writes. -/
structure MapChangeState where
  maps : List (EntityId × MapComp)
  current_map : Option EntityId
  player : EntityId
deriving Repr, DecidableEq

/-- Modelled from the spec: the external map provider; get_map(name, level,
kind) returns the map entity for the request, generating it when missing. -/
structure MapManager where
  get_map : String → Int → String → EntityId

/-- The request triple on_map_change resolves before calling the map manager
(processors.py:279-287): a None level is normalized to 0 and a missing type
field defaults to dungeon. -/
def MapChangeProcessor.resolveRequest (ev : MapChangeEvent) : String × Int × String :=
  (ev.name, ev.level.getD 0, ev.typeField.getD "dungeon")

/-- MapChangeProcessor.change_map (processors.py:300-309): when a current map
exists, set the new map's parent to it and add the new map to its children;
make the new map current and throw MapChanged. -/
def MapChangeProcessor.change_map (st : MapChangeState) (new_map : EntityId) :
    Except String (MapChangeState × List GameEventRec) :=
  match st.current_map with
  | none => .ok ({ st with current_map := some new_map }, [GameEventRec.MapChanged])
  | some cur =>
    match getc st.maps new_map with
    | none => .error "AttributeError: None.parent"
    | some new_mc =>
      let maps1 := setc st.maps new_map { new_mc with parent := some cur }
      match getc maps1 cur with
      | none => .error "AttributeError: None.add_child"
      | some cur_mc =>
        .ok ({ st with
                maps := setc maps1 cur (cur_mc.add_child new_map)
                current_map := some new_map },
             [GameEventRec.MapChanged])

/-- MapChangeProcessor.on_map_change (processors.py:278-298): resolve the
request, obtain the target map, throw a MoveAction placing the player at the
new map's entry point with the absolute flag set, then change the current map
(which throws MapChanged). The returned list carries the thrown events in
order. -/
def MapChangeProcessor.on_map_change (mm : MapManager) (st : MapChangeState)
    (ev : MapChangeEvent) : Except String (MapChangeState × List GameEventRec) :=
  let req := MapChangeProcessor.resolveRequest ev
  let new_map := mm.get_map req.1 req.2.1 req.2.2
  match getc st.maps new_map with
  | none => .error "AttributeError: None.entry"
  | some new_mc =>
    let entry_point := new_mc.entry
    let move_action := GameEventRec.MoveAction st.player entry_point.1 entry_point.2 1
    match MapChangeProcessor.change_map st new_map with
    | .error s => .error s
    | .ok (st2, evs) => .ok (st2, move_action :: evs)

/-- Modelled from the spec: the move-action consumer repositioning an entity;
with the absolute flag set the coordinates are taken absolutely, otherwise as a
relative displacement. -/
def applyMoveAction (positions : List (EntityId × Position)) (ev : GameEventRec) :
    List (EntityId × Position) :=
  match ev with
  | GameEventRec.MoveAction e dx dy a =>
    match getc positions e with
    | some p => setc positions e (if a = 1 then Position.mk dx dy else p.move dx dy)
    | none => positions
  | _ => positions

/-- The MapTransition component: target map name and level. -/
structure MapTransition where
  target_map : String
  target_level : Option Int
deriving Repr, DecidableEq

/-- TransitionProcessor.on_map_transition (processors.py:390-395): the MapChange
event thrown for the used entity's MapTransition component — only name and
level are set, no type field. -/
def TransitionProcessor.on_map_transition (target : MapTransition) : MapChangeEvent :=
  { name := target.target_map, level := target.target_level, typeField := none }

-- Use entity (processors.py UseEntityProcessor, lines 348-377)

/-- The Useable component: the name of the use-event kind to dispatch. -/
structure Useable where
  useEvent : String
deriving Repr, DecidableEq

/-- The entity-manager view the use-entity processor reads. -/
structure UseState where
  positions : List (EntityId × Position)
  collidings : List (EntityId × Rect)
  useables : List (EntityId × Useable)

/-- The rect-building loop of on_use_entity (processors.py:368-370): a 32 by 32
trigger rectangle centered on each useable entity's position; a useable without
a Position raises. -/
def UseEntityProcessor.useableRects (positions : List (EntityId × Position)) :
    List (EntityId × Useable) → Except String (List (EntityId × Rect))
  | [] => .ok []
  | p :: rest =>
    match getc positions p.1 with
    | none => .error "AttributeError: None.x"
    | some pos =>
      match UseEntityProcessor.useableRects positions rest with
      | .error s => .error s
      | .ok rs => .ok ((p.1, Rect.mk (pos.x - 16) (pos.y - 16) 32 32) :: rs)

/-- UseEntityProcessor.on_use_entity (processors.py:362-377): build a transient
index over all useable entities, query collisions against the acting entity's
collider, and on a nonempty result dispatch the first colliding useable's
configured use-event naming the used entity; otherwise dispatch nothing. -/
def UseEntityProcessor.on_use_entity (st : UseState) (user : EntityId) :
    Except String (List GameEventRec) :=
  match getc st.positions user with
  | none => .error "AttributeError: None.x"
  | some _ =>
    match getc st.collidings user with
    | none => .error "TypeError: collide_rect with None"
    | some user_colliding =>
      match UseEntityProcessor.useableRects st.positions st.useables with
      | .error s => .error s
      | .ok rects =>
        let cm := CollisionManager.fill (Rect.mk 0 0 3200 4480) rects
        let collisions := cm.collide_rect user user_colliding
        match collisions with
        | [] => .ok []
        | c0 :: _ =>
          match getc st.useables c0 with
          | none => .error "KeyError: Useable"
          | some u => .ok [GameEventRec.UseEvent u.useEvent c0]

-- Helper lemmas: a movement step for one entity never touches another
-- entity's components

theorem stepEntity_preserves_other (st st2 : MSState) (delta : ℚ) (e2 e : EntityId)
    (i : InputComp) (hne : e2 ≠ e)
    (h : MovementSystem.stepEntity st delta e2 i = .ok st2) :
    getc st2.em.positions e = getc st.em.positions e ∧
    getc st2.em.movements e = getc st.em.movements e ∧
    getc st2.em.sprites e = getc st.em.sprites e ∧
    getc st2.em.collidings e = getc st.em.collidings e := by
  unfold MovementSystem.stepEntity at h
  by_cases hdir : i.direction.direction ≠ 0
  · rw [if_pos hdir] at h
    cases hp : getc st.em.positions e2 with
    | none => rw [hp] at h; exact absurd h (by simp)
    | some p =>
      rw [hp] at h
      cases hm : getc st.em.movements e2 with
      | none => rw [hm] at h; exact absurd h (by simp)
      | some m =>
        rw [hm] at h
        cases hs : getc st.em.sprites e2 with
        | none => rw [hs] at h; exact absurd h (by simp)
        | some sp =>
          rw [hs] at h
          simp only [Except.ok.injEq] at h
          subst h
          cases hc : (MovementSystem.apply st.cm e2 i.direction
              (m.speed * delta) p (getc st.em.collidings e2)).collidable with
          | none =>
            simp only [hc]
            exact ⟨getc_setc_ne _ _ _ _ hne, trivial, getc_setc_ne _ _ _ _ hne, trivial⟩
          | some c =>
            simp only [hc]
            exact ⟨getc_setc_ne _ _ _ _ hne, trivial, getc_setc_ne _ _ _ _ hne,
              getc_setc_ne _ _ _ _ hne⟩
  · rw [if_neg hdir] at h
    cases hs : getc st.em.sprites e2 with
    | none => rw [hs] at h; exact absurd h (by simp)
    | some sp =>
      rw [hs] at h
      simp only [Except.ok.injEq] at h
      subst h
      exact ⟨rfl, rfl, getc_setc_ne _ _ _ _ hne, rfl⟩

theorem stepEntity_moves_uncollided (st : MSState) (delta : ℚ) (e : EntityId)
    (inp : InputComp) (p : Position) (m : Movement) (sp : Sprite)
    (hdir : inp.direction.direction ≠ 0)
    (hp : getc st.em.positions e = some p)
    (hm : getc st.em.movements e = some m)
    (hs : getc st.em.sprites e = some sp)
    (hc : getc st.em.collidings e = none) :
    MovementSystem.stepEntity st delta e inp = .ok
      { em :=
          { st.em with
            positions := setc st.em.positions e
              (p.move (inp.direction.get_dx (m.speed * delta))
                (inp.direction.get_dy (m.speed * delta)))
            sprites := setc st.em.sprites e (sp.animate "walk") }
        cm := st.cm } := by
  unfold MovementSystem.stepEntity
  rw [if_pos hdir, hp, hm, hs, hc]
  rfl

theorem runEntities_preserves_not_mem (delta : ℚ) (e : EntityId) :
    ∀ (l : List (EntityId × InputComp)) (st st2 : MSState),
      e ∉ l.map Prod.fst →
      MovementSystem.runEntities delta l st = .ok st2 →
      getc st2.em.positions e = getc st.em.positions e := by
  intro l
  induction l with
  | nil =>
    intro st st2 _ h
    simp only [MovementSystem.runEntities, Except.ok.injEq] at h
    rw [h]
  | cons hd tl ih =>
    intro st st2 hmem h
    obtain ⟨e1, i1⟩ := hd
    rw [List.map_cons] at hmem
    simp only [List.mem_cons, not_or] at hmem
    obtain ⟨hne, hnm⟩ := hmem
    simp only [MovementSystem.runEntities] at h
    cases hstep : MovementSystem.stepEntity st delta e1 i1 with
    | error s => rw [hstep] at h; exact absurd h (by simp)
    | ok st3 =>
      rw [hstep] at h
      have hpres := stepEntity_preserves_other st st3 delta e1 e i1
        (fun hh => hne hh.symm) hstep
      rw [ih st3 st2 hnm h, hpres.1]

theorem runEntities_moves_uncollided (delta : ℚ) (e : EntityId) :
    ∀ (l : List (EntityId × InputComp)) (st st2 : MSState) (inp : InputComp)
      (p : Position) (m : Movement) (sp : Sprite),
      (l.map Prod.fst).Nodup → (e, inp) ∈ l →
      inp.direction.direction ≠ 0 →
      getc st.em.positions e = some p →
      getc st.em.movements e = some m →
      getc st.em.sprites e = some sp →
      getc st.em.collidings e = none →
      MovementSystem.runEntities delta l st = .ok st2 →
      getc st2.em.positions e =
        some (p.move (inp.direction.get_dx (m.speed * delta))
          (inp.direction.get_dy (m.speed * delta))) := by
  intro l
  induction l with
  | nil =>
    intro st st2 inp p m sp _ hmem
    exact absurd hmem (by simp)
  | cons hd tl ih =>
    intro st st2 inp p m sp hnd hmem hdir hp hm hs hc hrun
    obtain ⟨e1, i1⟩ := hd
    rw [List.map_cons, List.nodup_cons] at hnd
    obtain ⟨hnin, hndtl⟩ := hnd
    simp only [MovementSystem.runEntities] at hrun
    by_cases he : e1 = e
    · subst he
      have hi : i1 = inp := by
        rcases List.mem_cons.mp hmem with hh | hh
        · exact (Prod.mk.injEq _ _ _ _ ▸ hh).2.symm
        · exact absurd (List.mem_map_of_mem Prod.fst hh) hnin
      subst hi
      rw [stepEntity_moves_uncollided st delta e1 i1 p m sp hdir hp hm hs hc] at hrun
      have hpres := runEntities_preserves_not_mem delta e1 tl _ st2 hnin hrun
      rw [hpres]
      exact getc_setc_self _ _ _ _ hp
    · have hmem2 : (e, inp) ∈ tl := by
        rcases List.mem_cons.mp hmem with hh | hh
        · exact absurd ((Prod.mk.injEq _ _ _ _ ▸ hh).1.symm) he
        · exact hh
      cases hstep : MovementSystem.stepEntity st delta e1 i1 with
      | error s => rw [hstep] at hrun; exact absurd hrun (by simp)
      | ok st3 =>
        rw [hstep] at hrun
        have hpres := stepEntity_preserves_other st st3 delta e1 e i1 he hstep
        exact ih st3 st2 inp p m sp hndtl hmem2 hdir (hpres.1.trans hp)
          (hpres.2.1.trans hm) (hpres.2.2.1.trans hs) (hpres.2.2.2.trans hc) hrun

-- Helper lemmas: the fixed-timestep loop drains the lag in whole ticks

theorem innerLoop_eq (paused : Bool) :
    ∀ (n : ℕ) (lag : ℚ), numTicks lag = n →
      innerLoop lag paused =
        ((List.replicate n (stepRound paused)).flatten,
          lag - SEC_PER_UPDATE * (n : ℚ)) := by
  intro n
  induction n with
  | zero =>
    intro lag hn
    have hlt : ¬ SEC_PER_UPDATE ≤ lag := by
      intro hge
      have h1 : (1 : ℤ) ≤ ⌊lag / SEC_PER_UPDATE⌋ := by
        rw [Int.le_floor]
        push_cast
        rw [le_div_iff₀ (by norm_num [SEC_PER_UPDATE])]
        linarith
      unfold numTicks at hn
      omega
    rw [innerLoop, dif_neg hlt]
    simp
  | succ n ih =>
    intro lag hn
    have hge : SEC_PER_UPDATE ≤ lag := by
      by_contra hlt
      push_neg at hlt
      have h0 : ⌊lag / SEC_PER_UPDATE⌋ < 1 := by
        rw [Int.floor_lt]
        push_cast
        rw [div_lt_one (by norm_num [SEC_PER_UPDATE])]
        linarith
      unfold numTicks at hn
      omega
    have h1 : (1 : ℤ) ≤ ⌊lag / SEC_PER_UPDATE⌋ := by
      rw [Int.le_floor]
      push_cast
      rw [le_div_iff₀ (by norm_num [SEC_PER_UPDATE])]
      linarith
    have hfl : numTicks (lag - SEC_PER_UPDATE) = n := by
      unfold numTicks at hn ⊢
      have h2 : ⌊(lag - SEC_PER_UPDATE) / SEC_PER_UPDATE⌋ = ⌊lag / SEC_PER_UPDATE⌋ - 1 := by
        rw [sub_div, div_self (by norm_num [SEC_PER_UPDATE] : (SEC_PER_UPDATE : ℚ) ≠ 0),
          Int.floor_sub_one]
      omega
    rw [innerLoop, dif_pos hge, ih _ hfl]
    dsimp only
    rw [Prod.mk.injEq]
    constructor
    · rw [List.replicate_succ, List.flatten_cons]
    · push_cast
      ring

theorem mainIteration_spec (lag time_delta : ℚ) (paused : Bool) (rt : ℚ) :
    mainIteration lag time_delta paused rt =
      ((List.replicate (numTicks (lag + time_delta)) (stepRound paused)).flatten ++
        [Phase.render, Phase.sleep (max (MIN_FRAME_TIME - rt) 0)],
       lag + time_delta - SEC_PER_UPDATE * (numTicks (lag + time_delta) : ℚ)) := by
  simp only [mainIteration]
  rw [innerLoop_eq paused (numTicks (lag + time_delta)) (lag + time_delta) rfl]

theorem count_behaviour_flatten_replicate (n : ℕ) :
    ((List.replicate n (stepRound true)).flatten).count Phase.behaviourUpdate = 0 := by
  induction n with
  | zero => rfl
  | succ n ih =>
    rw [List.replicate_succ, List.flatten_cons, List.count_append, ih]
    rfl

theorem updateCalls_eq_map (r : Nat) (d : ℚ) (l : List GameSystem) :
    SystemManager.updateCalls r d l =
      l.map (fun s => SysCall.updateCall s.sysId r d) := by
  induction l with
  | nil => rfl
  | cons s rest ih => rw [List.map_cons, SystemManager.updateCalls, ih]

-- Concrete instances used by witnesses and counterexamples

/-- An input direction pointing along the x axis (direction code 1): the full
distance goes to dx, none to dy. -/
def exDir : Direction := ⟨1, fun q => q, fun _ => 0⟩

/-- A movement-system state whose single moving entity 0 has Input, Position,
Movement and Sprite but no Colliding component. -/
def exMS : MSState :=
  { em :=
      { inputs := [(0, ⟨exDir⟩)]
        positions := [(0, ⟨3, 4⟩)]
        movements := [(0, ⟨2⟩)]
        collidings := []
        sprites := [(0, ⟨"idle"⟩)] }
    cm := ⟨[]⟩ }

/-- The state after one movement update of `exMS`. -/
def exMS2 : MSState :=
  match MovementSystem.update exMS (1/2) with
  | .ok st => st
  | .error _ => exMS

/-- A movement-system state whose single moving entity 0 has Input, Position
and Movement but no Sprite component. -/
def exMS7 : MSState :=
  { em :=
      { inputs := [(0, ⟨exDir⟩)]
        positions := [(0, ⟨3, 4⟩)]
        movements := [(0, ⟨2⟩)]
        collidings := []
        sprites := [] }
    cm := ⟨[]⟩ }

-- Claim theorems

/-- C1: for an entity with a Colliding component, MovementSystem.apply predicts
the displacement per axis as the ceiling of its magnitude with the sign
preserved (-12/100 predicts to -1 and 45/100 to 1), queries collide_rect
against the collider moved by the predicted displacement, and commits the real
unrounded displacement to the position exactly when that query reports no
collision; on any collision the position is left unchanged. -/
theorem movement_apply_conservative_collision :
    (∀ (cm : CollisionManager) (entity : EntityId) (direction : Direction)
        (distance : ℚ) (position : Position) (c : Rect),
      (MovementSystem.apply cm entity direction distance position (some c)).position =
        (if (cm.collide_rect entity
              (c.move (copysign_ceil (direction.get_dx distance))
                (copysign_ceil (direction.get_dy distance)))).length = 0
         then position.move (direction.get_dx distance) (direction.get_dy distance)
         else position))
    ∧ copysign_ceil (-(12/100)) = -1 ∧ copysign_ceil (45/100) = 1 := by
  refine ⟨?_, ?_, ?_⟩
  · intro cm entity direction distance position c
    unfold MovementSystem.apply
    by_cases hq : (cm.collide_rect entity
        (c.move (copysign_ceil (direction.get_dx distance))
          (copysign_ceil (direction.get_dy distance)))).length = 0
    · rw [if_pos hq]
      simp [hq]
    · rw [if_neg hq]
      simp [Nat.pos_of_ne_zero hq]
  · unfold copysign_ceil
    rw [if_pos (by norm_num)]
    rw [show (⌈(-(-(12/100)) : ℚ)⌉ : ℤ) = 1 from Int.ceil_eq_iff.mpr (by norm_num)]
    norm_num
  · unfold copysign_ceil
    rw [if_neg (by norm_num)]
    rw [show (⌈(45/100 : ℚ)⌉ : ℤ) = 1 from Int.ceil_eq_iff.mpr (by norm_num)]
    norm_num

/-- C2: when the conservative collision query reports no collision — in
particular for every moving entity without a Colliding component — one
movement update commits exactly direction.get_dx(speed * delta) and
direction.get_dy(speed * delta) to the position, with no rounding. -/
theorem movement_update_exact_when_uncollided :
    (∀ (cm : CollisionManager) (entity : EntityId) (direction : Direction)
        (distance : ℚ) (position : Position) (c : Rect),
      cm.collide_rect entity
          (c.move (copysign_ceil (direction.get_dx distance))
            (copysign_ceil (direction.get_dy distance))) = [] →
      (MovementSystem.apply cm entity direction distance position (some c)).position =
        position.move (direction.get_dx distance) (direction.get_dy distance))
    ∧ (∀ (st : MSState) (delta : ℚ) (st2 : MSState) (e : EntityId) (inp : InputComp)
        (p : Position) (m : Movement) (sp : Sprite),
      (st.em.inputs.map Prod.fst).Nodup →
      (e, inp) ∈ st.em.inputs →
      inp.direction.direction ≠ 0 →
      getc st.em.positions e = some p →
      getc st.em.movements e = some m →
      getc st.em.sprites e = some sp →
      getc st.em.collidings e = none →
      MovementSystem.update st delta = .ok st2 →
      getc st2.em.positions e =
        some (p.move (inp.direction.get_dx (m.speed * delta))
          (inp.direction.get_dy (m.speed * delta)))) := by
  constructor
  · intro cm entity direction distance position c hq
    unfold MovementSystem.apply
    simp [hq]
  · intro st delta st2 e inp p m sp hnd hmem hdir hp hm hs hc hok
    exact runEntities_moves_uncollided delta e st.em.inputs st st2 inp p m sp
      hnd hmem hdir hp hm hs hc hok

/-- C2 witness: the single uncollided moving entity of `exMS` at speed 2 and
delta 1/2 ends at its old position displaced by get_dx(2 * (1/2)) and
get_dy(2 * (1/2)). -/
theorem movement_update_exact_witness :
    getc exMS2.em.positions 0 =
      some (Position.move ⟨3, 4⟩ (exDir.get_dx ((2 : ℚ) * (1/2)))
        (exDir.get_dy ((2 : ℚ) * (1/2)))) :=
  movement_update_exact_when_uncollided.2 exMS (1/2) exMS2 0 ⟨exDir⟩ ⟨3, 4⟩ ⟨2⟩ ⟨"idle"⟩
    (by simp [exMS]) (by simp [exMS]) (by decide) rfl rfl rfl rfl rfl

/-- C7 counterexample: entity 0 of `exMS7` has Input (with a nonzero direction),
Position and Movement but no Sprite component, and the movement update call
fails on it rather than handling the partial entity gracefully. -/
theorem movement_update_missing_sprite_fails :
    MovementSystem.update exMS7 1 = Except.error "AttributeError: None.animate" := rfl

/-- C7 (amended): a component-store query for an absent component yields an
explicit none, and an entity without a Colliding component skips the collision
check entirely and still moves — MovementSystem.apply commits the displacement
for every collision-manager state and leaves the collision manager untouched;
but an entity missing Sprite, Position or Movement makes the update call fail. -/
theorem missing_collider_skips_collision :
    (∀ (l : List (EntityId × Rect)) (e : EntityId),
        e ∉ l.map Prod.fst → getc l e = none)
    ∧ (∀ (cm : CollisionManager) (entity : EntityId) (direction : Direction)
          (distance : ℚ) (position : Position),
        (MovementSystem.apply cm entity direction distance position none).position =
            position.move (direction.get_dx distance) (direction.get_dy distance)
          ∧ (MovementSystem.apply cm entity direction distance position none).cm = cm) := by
  constructor
  · exact fun l e h => getc_none_of_not_mem l e h
  · intro cm entity direction distance position
    exact ⟨rfl, rfl⟩

/-- C7 witness: entity 0 is absent from a collection keyed by entity 1, so the
query yields none; and apply without a collider moves the position even on an
empty collision manager. -/
theorem missing_collider_witness :
    getc ([(1, Rect.mk 0 0 1 1)] : List (EntityId × Rect)) 0 = none
    ∧ (MovementSystem.apply ⟨[]⟩ 0 exDir 1 ⟨0, 0⟩ none).position =
        Position.move ⟨0, 0⟩ (exDir.get_dx 1) (exDir.get_dy 1) :=
  ⟨missing_collider_skips_collision.1 [(1, Rect.mk 0 0 1 1)] 0 (by decide),
   (missing_collider_skips_collision.2 ⟨[]⟩ 0 exDir 1 ⟨0, 0⟩).1⟩

/-- C3 counterexample: the unpaused stepping round of engine.main drains events
directly after the behaviour update as well, so it is not the six-phase order
input, behaviour, systems, drain, process update, drain stated by the claim. -/
theorem stepping_round_order_counterexample : stepRound false ≠ claimedStepRound := by
  decide

/-- C3 (amended): each outer iteration adds the measured delta to the lag and,
while the lag is at least SEC_PER_UPDATE, performs one stepping round —
input, behaviour, event drain, systems, event drain, process update, event
drain, with the behaviour step and its drain skipped when paused — subtracting
exactly SEC_PER_UPDATE per round; only then does one render pass execute,
followed by a sleep of max(MIN_FRAME_TIME - render_time, 0). -/
theorem fixed_timestep_iteration :
    (∀ (lag time_delta : ℚ) (paused : Bool) (rt : ℚ),
      mainIteration lag time_delta paused rt =
        ((List.replicate (numTicks (lag + time_delta)) (stepRound paused)).flatten ++
          [Phase.render, Phase.sleep (max (MIN_FRAME_TIME - rt) 0)],
         lag + time_delta - SEC_PER_UPDATE * (numTicks (lag + time_delta) : ℚ)))
    ∧ stepRound false =
        [Phase.inputUpdate, Phase.behaviourUpdate, Phase.processEvents,
          Phase.systemsUpdate, Phase.processEvents, Phase.processUpdate,
          Phase.processEvents] :=
  ⟨fun lag d p rt => mainIteration_spec lag d p rt, rfl⟩

/-- C4: while paused, GameTimeSystem.update leaves the world time unchanged (for
any number N of ticks), the stepping round skips the behaviour update while
still polling input and updating the system manager, and every iteration still
renders. -/
theorem pause_freezes_world_time :
    (∀ (time_multi time delta : ℚ),
        GameTimeSystem.update GameStatus.paused time_multi time delta = time)
    ∧ (∀ (N : ℕ) (time_multi time delta : ℚ),
        (fun t => GameTimeSystem.update GameStatus.paused time_multi t delta)^[N] time
          = time)
    ∧ stepRound true =
        [Phase.inputUpdate, Phase.systemsUpdate, Phase.processEvents,
          Phase.processUpdate, Phase.processEvents]
    ∧ (∀ (lag time_delta rt : ℚ),
        (mainIteration lag time_delta true rt).1.count Phase.behaviourUpdate = 0
        ∧ Phase.inputUpdate ∈ stepRound true
        ∧ Phase.systemsUpdate ∈ stepRound true
        ∧ Phase.render ∈ (mainIteration lag time_delta true rt).1) := by
  refine ⟨?_, ?_, rfl, ?_⟩
  · intro tm t d
    simp [GameTimeSystem.update]
  · intro N tm t d
    induction N with
    | zero => rfl
    | succ n ih =>
      rw [Function.iterate_succ_apply', ih]
      simp [GameTimeSystem.update]
  · intro lag d rt
    refine ⟨?_, by decide, by decide, ?_⟩
    · rw [mainIteration_spec]
      dsimp only
      rw [List.count_append, count_behaviour_flatten_replicate]
      rfl
    · rw [mainIteration_spec]
      exact List.mem_append_right _ (List.mem_cons_self _ _)

/-- C8: SystemManager.add_system appends the system to the end of the ordered
list and calls its register hook exactly once; SystemManager.update makes
exactly one update call per added system, in insertion order. -/
theorem system_manager_contract :
    (∀ (m : SystemManagerState) (s : GameSystem),
      (SystemManager.add_system m s).1.systems = m.systems ++ [s]
      ∧ (SystemManager.add_system m s).2 = [SysCall.registerCall s.sysId])
    ∧ (∀ (m : SystemManagerState) (r : Nat) (d : ℚ),
      SystemManager.update m r d =
        m.systems.map (fun s => SysCall.updateCall s.sysId r d)) :=
  ⟨fun _ s => ⟨rfl, rfl⟩, fun m r d => updateCalls_eq_map r d m.systems⟩

/-- C5: processing a map-change event obtains the target map from the map
manager, throws a MoveAction placing the player at the new map's entry point
with the absolute flag, links the new map to the previous current map as
parent/child, makes the new map current and republishes MapChanged; applying
the thrown absolute MoveAction puts the player exactly at the entry point. -/
theorem map_change_links_and_repositions (mm : MapManager) (st : MapChangeState)
    (ev : MapChangeEvent) (new_map cur : EntityId) (new_mc cur_mc : MapComp)
    (positions : List (EntityId × Position)) (pp : Position)
    (hnm : new_map = mm.get_map (MapChangeProcessor.resolveRequest ev).1
        (MapChangeProcessor.resolveRequest ev).2.1
        (MapChangeProcessor.resolveRequest ev).2.2)
    (hcur : st.current_map = some cur)
    (hmc : getc st.maps new_map = some new_mc)
    (hcm : getc st.maps cur = some cur_mc)
    (hne : new_map ≠ cur) :
    ∃ st2, MapChangeProcessor.on_map_change mm st ev =
        .ok (st2, [GameEventRec.MoveAction st.player new_mc.entry.1 new_mc.entry.2 1,
          GameEventRec.MapChanged])
      ∧ st2.current_map = some new_map
      ∧ getc st2.maps new_map = some { new_mc with parent := some cur }
      ∧ getc st2.maps cur = some (cur_mc.add_child new_map)
      ∧ (getc positions st.player = some pp →
          getc (applyMoveAction positions
              (GameEventRec.MoveAction st.player new_mc.entry.1 new_mc.entry.2 1))
            st.player = some (Position.mk new_mc.entry.1 new_mc.entry.2)) := by
  have h2 : getc (setc st.maps new_map { new_mc with parent := some cur }) cur
      = some cur_mc := by
    rw [getc_setc_ne _ _ _ _ hne]
    exact hcm
  refine ⟨{ st with
      maps := setc (setc st.maps new_map { new_mc with parent := some cur }) cur
        (cur_mc.add_child new_map)
      current_map := some new_map }, ?_, rfl, ?_, ?_, ?_⟩
  · simp only [MapChangeProcessor.on_map_change, MapChangeProcessor.change_map,
      ← hnm, hmc, hcur, h2]
  · rw [getc_setc_ne _ _ _ _ (fun hh => hne hh.symm)]
    exact getc_setc_self _ _ _ _ hmc
  · exact getc_setc_self _ _ _ _ h2
  · intro hpp
    simp only [applyMoveAction, hpp]
    rw [if_pos trivial]
    exact getc_setc_self _ _ _ _ hpp

/-- The map components of the witness scenario: the world map at level 0 and a
dungeon map whose entry point is (10, 20). -/
def exWorldMap : MapComp := ⟨(0, 0), none, []⟩

def exDungeonMap : MapComp := ⟨(10, 20), none, []⟩

/-- The witness map-change state: map entity 0 is the current world map, map
entity 1 is the dungeon, the player is entity 7. -/
def exMapState : MapChangeState :=
  { maps := [(0, exWorldMap), (1, exDungeonMap)], current_map := some 0, player := 7 }

/-- The witness map manager resolves every request to map entity 1. -/
def exMapManager : MapManager := ⟨fun _ _ _ => 1⟩

/-- C5 witness: changing from the world map to ("dungeon", 1, "dungeon") links
the dungeon under the world map, makes it current, and the move action puts the
player at the dungeon's entry point (10, 20). -/
theorem map_change_witness :
    ∃ st2, MapChangeProcessor.on_map_change exMapManager exMapState
          ⟨"dungeon", some 1, some "dungeon"⟩ =
        .ok (st2, [GameEventRec.MoveAction 7 exDungeonMap.entry.1 exDungeonMap.entry.2 1,
          GameEventRec.MapChanged])
      ∧ st2.current_map = some 1
      ∧ getc st2.maps 1 = some { exDungeonMap with parent := some 0 }
      ∧ getc st2.maps 0 = some (exWorldMap.add_child 1)
      ∧ (getc [(7, Position.mk 1 1)] exMapState.player = some (Position.mk 1 1) →
          getc (applyMoveAction [(7, Position.mk 1 1)]
              (GameEventRec.MoveAction 7 exDungeonMap.entry.1 exDungeonMap.entry.2 1))
            exMapState.player = some (Position.mk exDungeonMap.entry.1 exDungeonMap.entry.2)) :=
  map_change_links_and_repositions exMapManager exMapState
    ⟨"dungeon", some 1, some "dungeon"⟩ 1 0 exDungeonMap exWorldMap
    [(7, Position.mk 1 1)] (Position.mk 1 1) rfl rfl rfl rfl (by decide)

/-- C6: on a use-entity action, the processor indexes all useable entities,
queries collisions against the actor's collider, and dispatches exactly the
first colliding useable's configured use-event naming the used entity; with no
colliding useable it dispatches nothing. -/
theorem use_entity_dispatches_use_event (st : UseState) (user : EntityId)
    (up : Position) (uc : Rect) (rects : List (EntityId × Rect))
    (h1 : getc st.positions user = some up)
    (h2 : getc st.collidings user = some uc)
    (h3 : UseEntityProcessor.useableRects st.positions st.useables = .ok rects) :
    ((CollisionManager.fill (Rect.mk 0 0 3200 4480) rects).collide_rect user uc = [] →
        UseEntityProcessor.on_use_entity st user = .ok [])
    ∧ (∀ (c0 : EntityId) (tl : List EntityId) (u : Useable),
        (CollisionManager.fill (Rect.mk 0 0 3200 4480) rects).collide_rect user uc
            = c0 :: tl →
        getc st.useables c0 = some u →
        UseEntityProcessor.on_use_entity st user =
          .ok [GameEventRec.UseEvent u.useEvent c0]) := by
  constructor
  · intro hq
    simp only [UseEntityProcessor.on_use_entity, h1, h2, h3, hq]
  · intro c0 tl u hq hu
    simp only [UseEntityProcessor.on_use_entity, h1, h2, h3, hq, hu]

/-- The witness use-entity state: actor 0 stands at (16, 16) with a 1 by 1
collider; useable entity 1 also sits at (16, 16), so its 32 by 32 trigger
rectangle covers the actor. -/
def exUseState : UseState :=
  { positions := [(0, ⟨16, 16⟩), (1, ⟨16, 16⟩)]
    collidings := [(0, Rect.mk 16 16 1 1)]
    useables := [(1, ⟨"MapTransition"⟩)] }

/-- C6 witness: the actor on the useable's trigger rectangle dispatches exactly
the configured MapTransition use-event naming the used entity 1. -/
theorem use_entity_witness :
    UseEntityProcessor.on_use_entity exUseState 0 =
      .ok [GameEventRec.UseEvent "MapTransition" 1] := by
  have hcol : (CollisionManager.fill (Rect.mk 0 0 3200 4480)
        [(1, Rect.mk (16 - 16) (16 - 16) 32 32)]).collide_rect 0
        (Rect.mk 16 16 1 1) = [1] := by
    simp only [CollisionManager.fill, CollisionManager.collide_rect,
      List.filter_cons, List.filter_nil, Rect.overlaps]
    norm_num
  exact (use_entity_dispatches_use_event exUseState 0 ⟨16, 16⟩ (Rect.mk 16 16 1 1)
      [(1, Rect.mk (16 - 16) (16 - 16) 32 32)] rfl rfl rfl).2 1 []
      ⟨"MapTransition"⟩ hcol rfl

/-- C9: SoundSystem.play with a key absent from the preloaded bank resolves to
a logged error, skipping playback without raising; with a present key it plays
the looked-up sound (with loop count -1). -/
theorem sound_missing_key_nonfatal (bank : List (String × Sound)) (key : String) :
    (SoundBank.get bank key = none →
        SoundSystem.play bank key = PlayResult.loggedError key)
    ∧ (∀ s : Sound, SoundBank.get bank key = some s →
        SoundSystem.play bank key = PlayResult.played s (-1)) := by
  constructor
  · intro h
    unfold SoundSystem.play
    rw [h]
  · intro s h
    unfold SoundSystem.play
    rw [h]

/-- The witness sound bank holding only the main theme. -/
def exBank : List (String × Sound) := [("nightcaste_main.wav", ⟨"main-theme"⟩)]

/-- C9 witness: a missing key logs an error, the present key plays its sound. -/
theorem sound_missing_key_witness :
    SoundSystem.play exBank "missing.wav" = PlayResult.loggedError "missing.wav"
    ∧ SoundSystem.play exBank "nightcaste_main.wav" =
        PlayResult.played ⟨"main-theme"⟩ (-1) :=
  ⟨(sound_missing_key_nonfatal exBank "missing.wav").1 rfl,
   (sound_missing_key_nonfatal exBank "nightcaste_main.wav").2 ⟨"main-theme"⟩ rfl⟩

/-- C10: on_map_change normalizes a None level to 0 and a missing type field to
dungeon, and every MapChange event built by TransitionProcessor sets only name
and level, so its request always resolves to a dungeon-type map. -/
theorem transition_map_change_defaults :
    (∀ ev : MapChangeEvent, ev.level = none →
        (MapChangeProcessor.resolveRequest ev).2.1 = 0)
    ∧ (∀ ev : MapChangeEvent, ev.typeField = none →
        (MapChangeProcessor.resolveRequest ev).2.2 = "dungeon")
    ∧ (∀ t : MapTransition,
        MapChangeProcessor.resolveRequest (TransitionProcessor.on_map_transition t) =
          (t.target_map, t.target_level.getD 0, "dungeon")) := by
  refine ⟨?_, ?_, ?_⟩
  · intro ev h
    unfold MapChangeProcessor.resolveRequest
    rw [h]
    rfl
  · intro ev h
    unfold MapChangeProcessor.resolveRequest
    rw [h]
    rfl
  · intro t
    rfl

/-- C10 witness: a levelless typeless event resolves to level 0, a typeless
event resolves to a dungeon request, and a transition with target level None
resolves to ("depths", 0, "dungeon"). -/
theorem transition_defaults_witness :
    (MapChangeProcessor.resolveRequest ⟨"dungeon", none, none⟩).2.1 = 0
    ∧ (MapChangeProcessor.resolveRequest ⟨"dungeon", some 1, none⟩).2.2 = "dungeon"
    ∧ MapChangeProcessor.resolveRequest
        (TransitionProcessor.on_map_transition ⟨"depths", none⟩) =
          ("depths", 0, "dungeon") :=
  ⟨transition_map_change_defaults.1 ⟨"dungeon", none, none⟩ rfl,
   transition_map_change_defaults.2.1 ⟨"dungeon", some 1, none⟩ rfl,
   transition_map_change_defaults.2.2 ⟨"depths", none⟩⟩
